import Mathlib

/-!
# Verification of the atlas-osb dynamic plan resolution engine

Shallow embedding of `pkg/broker/broker.go` (functions `parsePlan`,
`getInstancePlan`, `getPlan`, `getClient`, `GetDashboardURL`) together with
the data model they operate on.  External library calls (text/template
execution, YAML/JSON codecs, mapstructure, the digest HTTP transport, the
Atlas client and the instance state store) are modelled as components of an
explicit environment record `Env`, so every broker function is a pure Lean
function of the broker value, the environment and the request inputs.

Go's `(value, error)` returns are modelled with `Except`; a nil-pointer
dereference (which panics in Go) is a distinguished outcome `GoErr.nilDeref`
of `getClient`, kept separate from ordinary returned errors.
-/

/-- A dynamic (loosely typed) Go value, as stored in `interface{}` fields of
the instance record (`i.Parameters` in `getInstancePlan`). -/
inductive GoValue where
  | null : GoValue
  | str : String → GoValue
  | num : Int → GoValue
  | boolean : Bool → GoValue
  | arr : List GoValue → GoValue
  | map : List (String × GoValue) → GoValue

/-- Go type name of a dynamic value, as printed by the `%T` format verb in
`fmt.Errorf` (`getInstancePlan` uses it in its two type-mismatch errors). -/
def GoValue.typeName : GoValue → String
  | .null => "<nil>"
  | .str _ => "string"
  | .num _ => "float64"
  | .boolean _ => "bool"
  | .arr _ => "[]interface {}"
  | .map _ => "map[string]interface {}"

/-- Key lookup in a Go `map[string]interface{}` modelled as an association
list (`params["plan"]` in `getInstancePlan`). -/
def goLookup : List (String × GoValue) → String → Option GoValue
  | [], _ => none
  | (k, v) :: rest, key => if k = key then some v else goLookup rest key

/-- Modelled from the spec: `credentials.APIKey` (the credentials package is
not part of the excerpt).  §3 APIKeyPair: a public/private key pair; the
broker code additionally reads its organization id (`dp.APIKey.OrgID`). -/
structure APIKey where
  PublicKey : String
  PrivateKey : String
  OrgID : String
deriving DecidableEq, Repr

/-- Struct `mongodbatlas.Project`, restricted to the fields the broker core reads
and writes: id, name and organization id (spec §3: "required Project (id,
name, organization id, and nested attributes)"). -/
structure Project where
  ID : String
  Name : String
  OrgID : String
deriving DecidableEq, Repr

/-- Provider settings of a cluster specification (spec §6 template format:
`cluster{providerSettings{instanceSizeName,...}}`). -/
structure ProviderSettings where
  InstanceSizeName : String
deriving DecidableEq, Repr

/-- Cluster specification of a plan (spec §3). -/
structure Cluster where
  ProviderSettings : ProviderSettings
deriving DecidableEq, Repr

/-- A database-user role (spec §6 template format: `roles[]`). -/
structure Role where
  RoleName : String
  DatabaseName : String
deriving DecidableEq, Repr

/-- A database-user specification of a plan (spec §6 template format). -/
structure DatabaseUser where
  Username : String
  Password : String
  DatabaseName : String
  GroupID : String
  Roles : List Role
deriving DecidableEq, Repr

/-- An IP whitelist entry of a plan (spec §6 template format). -/
structure IPWhitelistEntry where
  IPAddress : String
  Comment : String
  GroupID : String
deriving DecidableEq, Repr

/-- Modelled from the spec: `dynamicplans.Plan` (the dynamicplans package is
not part of the excerpt).  §3 Plan: optional explicit `APIKey`, `Project`
(a pointer in Go, hence `Option`: `getPlan` checks `dp.Project == nil`),
a `Cluster` specification, database users and IP whitelist entries. -/
structure Plan where
  APIKey : Option APIKey
  Project : Option Project
  Cluster : Option Cluster
  DatabaseUsers : List DatabaseUser
  IPWhitelists : List IPWhitelistEntry
deriving DecidableEq, Repr

/-- Modelled from the spec: `dynamicplans.Context`, the per-request plan
context (§3 Context: an ordered key/value structure with loosely typed
values).  The broker core only checks it against nil and hands it to the
template engine and the JSON codec, both modelled in `Env`. -/
structure Ctx where
  kv : List (String × GoValue)

/-- Modelled from the spec: the credential store (`credentials.Credentials`,
not part of the excerpt).  §2: "maps an organization identifier to an API
key pair"; `ByOrg` is the lookup `getClient` and `getState` use, and it can
fail (spec §7 `CredentialLookupError`). -/
structure Credentials where
  ByOrg : String → Except String APIKey

/-- A catalog entry (`domain.ServicePlan`): the broker reads only
`sp.Metadata.AdditionalMetadata["template"]` and type-asserts it to a
template container; `template = none` models a missing key or a failed type
assertion, `some body` a valid template with body text `body`. -/
structure ServicePlan where
  template : Option String

/-- The plan catalog: a map from plan ID to catalog entry
(`b.catalog.plans` in `parsePlan`). -/
structure Catalog where
  plans : String → Option ServicePlan

/-- An instance record handed back by the state store
(`domain.GetInstanceDetailsSpec`): the broker core reads only its loosely
typed `Parameters` field. -/
structure Instance where
  Parameters : GoValue

/-- Opaque HTTP client produced by `digest.NewTransport(pub, priv).Client()`. -/
structure HClient where
  id : Nat
deriving DecidableEq, Repr

/-- Opaque Atlas API client produced by `mongodbatlas.New`. -/
structure AtlasClient where
  id : Nat
deriving DecidableEq, Repr

/-- The environment of external collaborators: every call the broker core
makes into a library or remote service, as a pure function.  Each field
documents the Go call it stands for. -/
structure Env where
  /-- Call `b.getInstance(ctx, instanceID)`: read the instance record from the
  state store.  Modelled from the spec (§6): `get(instanceID) -> rawRecord | NotFound`. -/
  getInstance : String → Except String Instance
  /-- Call `mapstructure.Decode(d, &plan)`: decode a loosely typed map into a
  `Plan`. -/
  mapstructureDecode : List (String × GoValue) → Except String Plan
  /-- Call `tpl.Execute(raw, ctx.With("credentials", b.credentials))`: run the
  plan template body against the context extended with the broker
  credentials, producing text. -/
  execute : String → Ctx → Credentials → Except String String
  /-- Call `yaml.NewDecoder(raw).Decode(dp)`: decode the rendered text as a YAML
  `Plan` document. -/
  yamlDecodePlan : String → Except String Plan
  /-- Call `json.Marshal(ctx)`: serialize the context; `parsePlan` discards the
  error (`pb, _ := json.Marshal(ctx)`), so only the bytes are modelled. -/
  jsonMarshalCtx : Ctx → String
  /-- Call `json.Unmarshal(pb, &dp)`: overlay the serialized context onto the
  rendered plan; on success the merged plan, on failure an error. -/
  jsonUnmarshalMerge : String → Plan → Except String Plan
  /-- Call `digest.NewTransport(key.PublicKey, key.PrivateKey).Client()`. -/
  digestClient : String → String → Except String HClient
  /-- Call `mongodbatlas.New(hc, mongodbatlas.SetBaseURL(b.atlasURL))`. -/
  atlasNew : HClient → String → Except String AtlasClient
  /-- Call `client.Projects.GetOneProjectByName(ctx, name)`: remote lookup of a
  project by name; `ok` means found. -/
  getOneProjectByName : AtlasClient → String → Except String Project

/-- The broker (`Broker` struct), restricted to the fields the modelled
functions read: credentials, the Atlas and Realm base URLs and the catalog.
The logger, whitelist and user agent play no role in plan resolution. -/
structure Broker where
  credentials : Credentials
  atlasURL : String
  realmURL : String
  catalog : Catalog

/-- Function `Broker.parsePlan` (broker.go:86-124): look the plan up in the catalog,
type-assert its template, execute the template against the context extended
with the broker credentials, decode the output as YAML, then overlay the
JSON-serialized context onto the decoded plan.  A failed overlay is logged
and discarded: the function still returns `dp, nil`. -/
def Broker.parsePlan (b : Broker) (env : Env) (ctx : Ctx) (planID : String) :
    Except String Plan :=
  match b.catalog.plans planID with
  | none => .error ("plan ID \"" ++ planID ++ "\" not found in catalog")
  | some sp =>
    match sp.template with
    | none => .error "plan ID %q does not contain a valid plan template"
    | some tpl =>
      match env.execute tpl ctx b.credentials with
      | .error e => .error e
      | .ok raw =>
        match env.yamlDecodePlan raw with
        | .error e => .error e
        | .ok dp =>
          match env.jsonUnmarshalMerge (env.jsonMarshalCtx ctx) dp with
          | .error _ => .ok dp
          | .ok merged => .ok merged

/-- Function `Broker.getInstancePlan` (broker.go:126-150): fetch the instance record,
require `Parameters` to be a map holding a `"plan"` key that is itself a
map, and decode that map into a `Plan` with mapstructure. -/
def Broker.getInstancePlan (b : Broker) (env : Env) (instanceID : String) :
    Except String Plan :=
  match env.getInstance instanceID with
  | .error e => .error ("cannot fetch instance: " ++ e)
  | .ok i =>
    match i.Parameters with
    | .map params =>
      match goLookup params "plan" with
      | none => .error "plan not found in instance metadata"
      | some p =>
        match p with
        | .map d => env.mapstructureDecode d
        | other =>
          .error ("instance metadata plan has the wrong type " ++ other.typeName)
    | other =>
      .error ("instance metadata has the wrong type " ++ other.typeName)

/-- Function `Broker.getPlan` (broker.go:152-177): try the existing-instance path
(state store) first; on any error there, return the wrapped error when no
context was supplied, otherwise fall through to the new-instance path
(render from the catalog and require a non-nil `Project`). -/
def Broker.getPlan (b : Broker) (env : Env) (instanceID : String)
    (planID : String) (planCtx : Option Ctx) : Except String Plan :=
  match b.getInstancePlan env instanceID with
  | .ok dp => .ok dp
  | .error e =>
    match planCtx with
    | none => .error ("cannot find plan for instance \"" ++ instanceID ++ "\": " ++ e)
    | some ctx =>
      match b.parsePlan env ctx planID with
      | .error e₂ => .error e₂
      | .ok dp =>
        if dp.Project = none then .error "missing Project in plan definition"
        else .ok dp

/-- Outcome channel of `getClient`: an ordinary returned Go error, or a
nil-pointer dereference (a Go runtime panic, which never returns). -/
inductive GoErr where
  | goError : String → GoErr
  | nilDeref : GoErr
deriving DecidableEq, Repr

/-- The credential-routing switch of `getClient` (broker.go:187-201): an
explicit `APIKey` wins and its organization id overwrites
`Project.OrgID`; else a non-empty `Project.OrgID` is looked up in the
credential store; else the plan is unusable.  Reading or writing
`dp.Project.OrgID` dereferences the `Project` pointer, so a nil `Project`
panics. -/
def routeKey (creds : Credentials) (dp : Plan) : Except GoErr (APIKey × Plan) :=
  match dp.APIKey with
  | some k =>
    match dp.Project with
    | none => .error .nilDeref
    | some p => .ok (k, { dp with Project := some { p with OrgID := k.OrgID } })
  | none =>
    match dp.Project with
    | none => .error .nilDeref
    | some p =>
      if p.OrgID ≠ "" then
        match creds.ByOrg p.OrgID with
        | .error e => .error (.goError e)
        | .ok k => .ok (k, dp)
      else .error (.goError "template must contain either APIKey or Project.OrgID")

/-- The remote-reconciliation tail of `getClient` (broker.go:215-224): look
the project up by name; if found, replace `dp.Project` with the fetched
definition; on any lookup error, keep the plan unchanged and clear the
error (`err = nil`).  Reading `dp.Project.Name` dereferences the pointer. -/
def reconcileProject (env : Env) (client : AtlasClient) (dp : Plan) :
    Except GoErr Plan :=
  match dp.Project with
  | none => .error .nilDeref
  | some p =>
    match env.getOneProjectByName client p.Name with
    | .ok existing => .ok { dp with Project := some existing }
    | .error _ => .ok dp

/-- Function `Broker.getClient` (broker.go:179-225): resolve the plan, route the
credentials, build the digest HTTP client and the Atlas client, then
reconcile the project against remote state. -/
def Broker.getClient (b : Broker) (env : Env) (instanceID : String)
    (planID : String) (planCtx : Option Ctx) :
    Except GoErr (AtlasClient × Plan) :=
  match b.getPlan env instanceID planID planCtx with
  | .error e => .error (.goError e)
  | .ok dp =>
    match routeKey b.credentials dp with
    | .error e => .error e
    | .ok (key, dp₁) =>
      match env.digestClient key.PublicKey key.PrivateKey with
      | .error e => .error (.goError ("cannot create Digest client: " ++ e))
      | .ok hc =>
        match env.atlasNew hc b.atlasURL with
        | .error e => .error (.goError ("cannot create Atlas client: " ++ e))
        | .ok client =>
          match reconcileProject env client dp₁ with
          | .error e => .error e
          | .ok dp₂ => .ok (client, dp₂)

/-- A parsed URL (`net/url.URL`), restricted to the components the broker's
Atlas URL can carry: scheme, host, path, raw query and fragment. -/
structure GoURL where
  Scheme : String
  Host : String
  Path : String
  RawQuery : String
  Fragment : String
deriving DecidableEq, Repr

/-- Rendering `url.URL.String()` for the modelled components:
`scheme:` then `//host` then the path, `?query` and `#fragment` when
non-empty (percent-escaping is not modelled). -/
def GoURL.render (u : GoURL) : String :=
  (if u.Scheme = "" then "" else u.Scheme ++ ":") ++
  (if u.Host = "" then "" else "//" ++ u.Host) ++
  u.Path ++
  (if u.RawQuery = "" then "" else "?" ++ u.RawQuery) ++
  (if u.Fragment = "" then "" else "#" ++ u.Fragment)

/-- True when the string contains an ASCII control character, the condition
on which `url.Parse` rejects a URL outright. -/
def containsCtl (s : String) : Bool :=
  s.data.any fun c => c.toNat < 0x20 || c.toNat == 0x7f

/-- Split a character list at the first occurrence of a separator: the part
before it and the part after it, or `none` when the separator is absent. -/
def findSplit (sep : List Char) : List Char → Option (List Char × List Char)
  | [] => none
  | c :: rest =>
    if sep.isPrefixOf (c :: rest) then some ([], (c :: rest).drop sep.length)
    else
      match findSplit sep rest with
      | none => none
      | some (pre, post) => some (c :: pre, post)

/-- Split a string at the first occurrence of a separator: the part before
it and, when the separator occurs, the part after it. -/
def splitFirst (s sep : String) : String × Option String :=
  match findSplit sep.data s.data with
  | none => (s, none)
  | some (pre, post) => (⟨pre⟩, some ⟨post⟩)

/-- Parsing as in `url.Parse`, for absolute and relative URLs without user info or opaque
parts: a URL with a control character is rejected with Go's error message;
otherwise the fragment, query, scheme, host and path are split off in
`net/url`'s order. -/
def urlParse (s : String) : Except String GoURL :=
  if containsCtl s then
    .error ("parse \"" ++ s ++ "\": net/url: invalid control character in URL")
  else
    let (beforeFrag, frag) := splitFirst s "#"
    let (beforeQuery, query) := splitFirst beforeFrag "?"
    match splitFirst beforeQuery "://" with
    | (scheme, some rest) =>
      let (host, path) := splitFirst rest "/"
      .ok { Scheme := scheme, Host := host,
            Path := match path with | none => "" | some p => "/" ++ p,
            RawQuery := query.getD "", Fragment := frag.getD "" }
    | (_, none) =>
      .ok { Scheme := "", Host := "", Path := beforeQuery,
            RawQuery := query.getD "", Fragment := frag.getD "" }

/-- Function `Broker.GetDashboardURL` (broker.go:244-251): parse the configured
Atlas URL; on a parse error, return the error's message as the result
string; otherwise set the path to `/v2/<groupID>`, render the URL and
append `#clusters/detail/<clusterName>`. -/
def Broker.GetDashboardURL (b : Broker) (groupID clusterName : String) : String :=
  match urlParse b.atlasURL with
  | .error e => e
  | .ok apiURL =>
    { apiURL with Path := "/v2/" ++ groupID }.render ++
      "#clusters/detail/" ++ clusterName

/-! ## Concrete test fixtures

Concrete brokers, environments and plans used by the witnesses and
counterexamples below. -/

/-- A fixed API key pair belonging to organization `org1`. -/
def keyOrg1 : APIKey := { PublicKey := "pub", PrivateKey := "priv", OrgID := "org1" }

/-- An explicit API key pair whose organization id is empty. -/
def keyNoOrg : APIKey := { PublicKey := "pub2", PrivateKey := "priv2", OrgID := "" }

/-- A fixed project definition. -/
def projDemo : Project := { ID := "p1", Name := "demo", OrgID := "org1" }

/-- A fixed remote project definition, as fetched from Atlas. -/
def projRemote : Project := { ID := "p1-remote", Name := "demo", OrgID := "org9" }

/-- A fixed plan with a project and no explicit key. -/
def planDemo : Plan :=
  { APIKey := none, Project := some projDemo, Cluster := none,
    DatabaseUsers := [], IPWhitelists := [] }

/-- A plan carrying an explicit key whose organization id is empty. -/
def planExplicitNoOrg : Plan :=
  { planDemo with APIKey := some keyNoOrg,
                  Project := some { projDemo with OrgID := "" } }

/-- A plan carrying an explicit key and a previously set organization id. -/
def planExplicit : Plan :=
  { planDemo with APIKey := some keyOrg1,
                  Project := some { projDemo with OrgID := "orgX" } }

/-- A plan with neither an explicit key nor an organization id. -/
def planNoCreds : Plan :=
  { planDemo with Project := some { projDemo with OrgID := "" } }

/-- An empty request context. -/
def ctx0 : Ctx := ⟨[]⟩

/-- A non-empty request context. -/
def ctx1 : Ctx := ⟨[("overrideKey", .str "overrideValue")]⟩

/-- A credential store that knows no organization. -/
def creds0 : Credentials := ⟨fun _ => .error "credentials for org not found"⟩

/-- A credential store that answers every organization with `keyOrg1`. -/
def credsAll : Credentials := ⟨fun _ => .ok keyOrg1⟩

/-- A catalog holding `full-plan` (valid template) and `bogus` (an entry
with no valid template). -/
def catalog0 : Catalog :=
  ⟨fun pid =>
    if pid = "full-plan" then some ⟨some "tplbody"⟩
    else if pid = "bogus" then some ⟨none⟩
    else none⟩

/-- The base test broker. -/
def broker0 : Broker :=
  { credentials := creds0, atlasURL := "https://cloud.mongodb.com",
    realmURL := "https://realm.mongodb.com", catalog := catalog0 }

/-- The base environment: no stored instance, templates render to fixed
text, YAML decodes to `planDemo`, the context merge is the identity, client
construction succeeds and the remote project lookup fails. -/
def env0 : Env :=
  { getInstance := fun _ => .error "instance not found",
    mapstructureDecode := fun _ => .error "decode failed",
    execute := fun _ _ _ => .ok "rendered",
    yamlDecodePlan := fun _ => .ok planDemo,
    jsonMarshalCtx := fun _ => "ctxbytes",
    jsonUnmarshalMerge := fun _ dp => .ok dp,
    digestClient := fun _ _ => .ok ⟨0⟩,
    atlasNew := fun _ _ => .ok ⟨0⟩,
    getOneProjectByName := fun _ _ => .error "PROJECT_NOT_FOUND" }

/-- Environment in which the instance record exists but its plan fails to
decode (`mapstructure` error), while the catalog path still renders. -/
def envRecordBad : Env :=
  { env0 with getInstance := fun _ => .ok ⟨.map [("plan", .map [])]⟩ }

/-- Environment in which overlaying the context onto the plan fails. -/
def envMergeFail : Env :=
  { env0 with jsonUnmarshalMerge := fun _ _ => .error "json: cannot unmarshal" }

/-- Environment in which the rendered plan carries an explicit key with an
empty organization id. -/
def envNoOrgKey : Env :=
  { env0 with yamlDecodePlan := fun _ => .ok planExplicitNoOrg }

/-- Environment in which the rendered plan has neither key nor org id. -/
def envNoCreds : Env :=
  { env0 with yamlDecodePlan := fun _ => .ok planNoCreds }

/-- Environment in which the remote project lookup succeeds. -/
def envFound : Env :=
  { env0 with getOneProjectByName := fun _ _ => .ok projRemote }

/-- Environment in which the instance record exists and decodes to
`planDemo`. -/
def envRecordGood : Env :=
  { env0 with getInstance := fun _ => .ok ⟨.map [("plan", .map [])]⟩,
              mapstructureDecode := fun _ => .ok planDemo }


/-! ## Claims -/

/-- C1, counterexample: the instance record for `"i-1"` exists but its plan
fails to decode (`getInstancePlan` returns the decode error), yet with a
non-nil context `getPlan` returns the freshly re-rendered catalog plan with
no error — it falls through instead of failing with a corrupt-state
error. -/
theorem getPlan_decode_failure_cex :
    broker0.getInstancePlan envRecordBad "i-1" = .error "decode failed" ∧
    broker0.getPlan envRecordBad "i-1" "full-plan" (some ctx0) = .ok planDemo := by
  exact ⟨rfl, rfl⟩

/-- C1 (amended): when the stored instance record fails to decode and a
non-nil context is supplied, `getPlan` does not return a corrupt-state
error: it falls through to the new-instance path, so its result is exactly
the render-merge-project-check pipeline on the supplied context.  Only a
nil context turns the store failure into a returned error. -/
theorem getPlan_decode_failure_falls_through (b : Broker) (env : Env)
    (instanceID planID : String) (c : Ctx) (e : String)
    (h : b.getInstancePlan env instanceID = .error e) :
    b.getPlan env instanceID planID (some c) =
      match b.parsePlan env c planID with
      | .error e₂ => .error e₂
      | .ok dp =>
        if dp.Project = none then .error "missing Project in plan definition"
        else .ok dp := by
  unfold Broker.getPlan
  rw [h]

/-- C1, witness for the amended claim at a concrete input. -/
theorem getPlan_decode_failure_falls_through_witness :
    broker0.getPlan envRecordBad "i-2" "full-plan" (some ctx0) = .ok planDemo := by
  have h := getPlan_decode_failure_falls_through broker0 envRecordBad "i-2"
    "full-plan" ctx0 "decode failed" rfl
  exact h.trans rfl

/-- C2, counterexample: overlaying the context onto the rendered plan fails
(the unmarshal step errors), yet `parsePlan` returns the unmerged plan with
no error instead of a merge error. -/
theorem parsePlan_merge_failure_cex :
    envMergeFail.jsonUnmarshalMerge (envMergeFail.jsonMarshalCtx ctx0) planDemo =
      .error "json: cannot unmarshal" ∧
    broker0.parsePlan envMergeFail ctx0 "full-plan" = .ok planDemo := by
  exact ⟨rfl, rfl⟩

/-- C2 (amended): a failed context merge is logged and discarded: whenever
the catalog lookup, template execution and YAML decode succeed but the
context overlay fails, `parsePlan` returns the rendered, unmerged plan with
no error rather than a merge error. -/
theorem parsePlan_merge_failure_swallowed (b : Broker) (env : Env) (c : Ctx)
    (planID tpl raw : String) (dp : Plan) (e : String)
    (hcat : b.catalog.plans planID = some ⟨some tpl⟩)
    (hex : env.execute tpl c b.credentials = .ok raw)
    (hyaml : env.yamlDecodePlan raw = .ok dp)
    (hmerge : env.jsonUnmarshalMerge (env.jsonMarshalCtx c) dp = .error e) :
    b.parsePlan env c planID = .ok dp := by
  simp only [Broker.parsePlan, hcat, hex, hyaml, hmerge]

/-- C2, witness for the amended claim at a concrete input. -/
theorem parsePlan_merge_failure_swallowed_witness :
    broker0.parsePlan envMergeFail ctx1 "full-plan" = .ok planDemo := by
  have h := parsePlan_merge_failure_swallowed broker0 envMergeFail ctx1
    "full-plan" "tplbody" "rendered" planDemo "json: cannot unmarshal"
    rfl rfl rfl rfl
  exact h

/-- C3, counterexample: a full resolution that succeeds end to end (render,
merge, credential routing via an explicit key, reconciliation with a failed
remote lookup) and whose resulting plan has a project with an empty
organization id — the explicit key's empty `OrgID` was copied onto it. -/
theorem getClient_success_empty_org_cex :
    broker0.getClient envNoOrgKey "i-3" "full-plan" (some ctx0) =
      .ok (⟨0⟩, planExplicitNoOrg) ∧
    planExplicitNoOrg.Project = some { ID := "p1", Name := "demo", OrgID := "" } := by
  exact ⟨rfl, rfl⟩

/-- Helper: a successful reconciliation always leaves a non-nil project on
the plan (a nil project would have panicked on the name dereference). -/
theorem reconcileProject_ok_project (env : Env) (client : AtlasClient)
    (dp dp₂ : Plan) (h : reconcileProject env client dp = .ok dp₂) :
    dp₂.Project ≠ none := by
  unfold reconcileProject at h
  cases hp : dp.Project with
  | none => simp only [hp] at h; exact Except.noConfusion h
  | some p =>
    simp only [hp] at h
    cases hr : env.getOneProjectByName client p.Name with
    | ok existing =>
      simp only [hr, Except.ok.injEq] at h
      rw [← h]
      simp
    | error e =>
      simp only [hr, Except.ok.injEq] at h
      rw [← h, hp]
      simp

/-- C3 (amended): when resolution succeeds end to end, the resulting plan
has a non-nil `Project` (the nil cases panic inside credential routing or
reconciliation and never return); its organization id, however, need not be
non-empty. -/
theorem getClient_success_project_nonnil (b : Broker) (env : Env)
    (instanceID planID : String) (planCtx : Option Ctx)
    (client : AtlasClient) (dp : Plan)
    (h : b.getClient env instanceID planID planCtx = .ok (client, dp)) :
    dp.Project ≠ none := by
  unfold Broker.getClient at h
  cases hgp : b.getPlan env instanceID planID planCtx with
  | error e => simp only [hgp] at h; exact Except.noConfusion h
  | ok dp₀ =>
    simp only [hgp] at h
    cases hrk : routeKey b.credentials dp₀ with
    | error e => simp only [hrk] at h; exact Except.noConfusion h
    | ok kp =>
      obtain ⟨key, dp₁⟩ := kp
      simp only [hrk] at h
      cases hdg : env.digestClient key.PublicKey key.PrivateKey with
      | error e => simp only [hdg] at h; exact Except.noConfusion h
      | ok hc =>
        simp only [hdg] at h
        cases han : env.atlasNew hc b.atlasURL with
        | error e => simp only [han] at h; exact Except.noConfusion h
        | ok client₂ =>
          simp only [han] at h
          cases hrc : reconcileProject env client₂ dp₁ with
          | error e => simp only [hrc] at h; exact Except.noConfusion h
          | ok dp₂ =>
            simp only [hrc, Except.ok.injEq, Prod.mk.injEq] at h
            rw [← h.2]
            exact reconcileProject_ok_project env client₂ dp₁ dp₂ hrc

/-- C3, witness for the amended claim at a concrete input. -/
theorem getClient_success_project_nonnil_witness :
    planExplicitNoOrg.Project ≠ none :=
  getClient_success_project_nonnil broker0 envNoOrgKey "i-4" "full-plan"
    (some ctx0) ⟨0⟩ planExplicitNoOrg rfl

/-- C4: on a plan with an explicit API key and a (non-nil) project, the
credential-routing switch returns that very key, overwrites the project's
organization id with the key's, and its result does not depend on the
credential store at all — the organization-based lookup is never
consulted. -/
theorem routeKey_explicit_key (creds creds₂ : Credentials) (dp : Plan)
    (k : APIKey) (p : Project) (hk : dp.APIKey = some k)
    (hp : dp.Project = some p) :
    routeKey creds dp =
      .ok (k, { dp with Project := some { p with OrgID := k.OrgID } }) ∧
    routeKey creds dp = routeKey creds₂ dp := by
  constructor <;> simp only [routeKey, hk, hp]

/-- C4, witness: a plan whose project already carries organization id
`"orgX"` and whose explicit key belongs to `"org1"` routes to the explicit
key and ends with `OrgID = "org1"`, identically under two different
credential stores. -/
theorem routeKey_explicit_key_witness :
    routeKey creds0 planExplicit =
      .ok (keyOrg1, { planExplicit with
                      Project := some { ID := "p1", Name := "demo", OrgID := "org1" } }) ∧
    routeKey creds0 planExplicit = routeKey credsAll planExplicit := by
  have h := routeKey_explicit_key creds0 credsAll planExplicit keyOrg1
    { projDemo with OrgID := "orgX" } rfl rfl
  exact h

/-- C5: for a plan with a (non-nil) project entering reconciliation, a
successful remote lookup by the project's name replaces the plan's project
with the fetched definition and returns without error, while any lookup
failure keeps the templated project unchanged and still returns without
error. -/
theorem reconcileProject_spec (env : Env) (client : AtlasClient) (dp : Plan)
    (p : Project) (hp : dp.Project = some p) :
    (∀ existing, env.getOneProjectByName client p.Name = .ok existing →
      reconcileProject env client dp = .ok { dp with Project := some existing }) ∧
    (∀ e, env.getOneProjectByName client p.Name = .error e →
      reconcileProject env client dp = .ok dp) := by
  constructor <;> intro x hx <;> simp only [reconcileProject, hp, hx]

/-- C5, witness: a found remote project is adopted; a failed lookup leaves
the plan unchanged with no error. -/
theorem reconcileProject_spec_witness :
    reconcileProject envFound ⟨0⟩ planDemo = .ok { planDemo with Project := some projRemote } ∧
    reconcileProject env0 ⟨0⟩ planDemo = .ok planDemo := by
  exact ⟨(reconcileProject_spec envFound ⟨0⟩ planDemo projDemo rfl).1 projRemote rfl,
         (reconcileProject_spec env0 ⟨0⟩ planDemo projDemo rfl).2 "PROJECT_NOT_FOUND" rfl⟩

/-- C6: when the resolved plan has no explicit API key and its project's
organization id is empty, `getClient` fails with the missing-credential
error and produces no client. -/
theorem getClient_missing_credential (b : Broker) (env : Env)
    (instanceID planID : String) (planCtx : Option Ctx) (dp : Plan) (p : Project)
    (hdp : b.getPlan env instanceID planID planCtx = .ok dp)
    (hk : dp.APIKey = none) (hp : dp.Project = some p) (ho : p.OrgID = "") :
    b.getClient env instanceID planID planCtx =
      .error (.goError "template must contain either APIKey or Project.OrgID") := by
  simp only [Broker.getClient, hdp, routeKey, hk, hp, ho]
  simp

/-- C6, witness at a concrete input. -/
theorem getClient_missing_credential_witness :
    broker0.getClient envNoCreds "i-6" "full-plan" (some ctx0) =
      .error (.goError "template must contain either APIKey or Project.OrgID") :=
  getClient_missing_credential broker0 envNoCreds "i-6" "full-plan" (some ctx0)
    planNoCreds { projDemo with OrgID := "" } rfl rfl rfl rfl

/-- C7: a plan ID absent from the catalog makes `parsePlan` fail with the
not-found error and no plan; a catalog entry without a valid template
likewise makes it fail with an error and no plan — in both cases the caller
sees an error and no plan. -/
theorem parsePlan_absent_or_invalid_template (b : Broker) (env : Env)
    (c : Ctx) (planID : String) :
    (b.catalog.plans planID = none →
      b.parsePlan env c planID =
        .error ("plan ID \"" ++ planID ++ "\" not found in catalog")) ∧
    (∀ sp, b.catalog.plans planID = some sp → sp.template = none →
      b.parsePlan env c planID =
        .error "plan ID %q does not contain a valid plan template") := by
  constructor
  · intro h
    simp only [Broker.parsePlan, h]
  · intro sp h ht
    simp only [Broker.parsePlan, h, ht]

/-- C7, witness: the absent plan ID `no-such` and the template-less catalog
entry `bogus`, both on the concrete test broker. -/
theorem parsePlan_absent_or_invalid_template_witness :
    broker0.parsePlan env0 ctx0 "no-such" =
      .error "plan ID \"no-such\" not found in catalog" ∧
    broker0.parsePlan env0 ctx0 "bogus" =
      .error "plan ID %q does not contain a valid plan template" := by
  refine ⟨?_, ?_⟩
  · have h := (parsePlan_absent_or_invalid_template broker0 env0 ctx0 "no-such").1 rfl
    exact h.trans rfl
  · exact (parsePlan_absent_or_invalid_template broker0 env0 ctx0 "bogus").2 ⟨none⟩ rfl rfl

/-- C8: when the instance record cannot be read and no context was supplied,
`getPlan` returns the wrapped cannot-find-plan error; the result is the
same for every plan ID, so the new-instance render path is never taken. -/
theorem getPlan_no_record_nil_ctx (b : Broker) (env : Env)
    (instanceID planID : String) (e : String)
    (h : b.getInstancePlan env instanceID = .error e) :
    b.getPlan env instanceID planID none =
      .error ("cannot find plan for instance \"" ++ instanceID ++ "\": " ++ e) ∧
    ∀ planID₂, b.getPlan env instanceID planID₂ none =
      b.getPlan env instanceID planID none := by
  constructor
  · simp only [Broker.getPlan, h]
  · intro planID₂
    simp only [Broker.getPlan, h]

/-- C8, witness: with an empty state store and a nil context the concrete
broker reports the wrapped error. -/
theorem getPlan_no_record_nil_ctx_witness :
    broker0.getPlan env0 "i-8" "full-plan" none =
      .error "cannot find plan for instance \"i-8\": cannot fetch instance: instance not found" := by
  have h := (getPlan_no_record_nil_ctx broker0 env0 "i-8" "full-plan"
    "cannot fetch instance: instance not found" rfl).1
  exact h.trans rfl

/-- C9: on the existing-instance path the resolved plan depends only on the
stored record: whenever the record decodes successfully, `getPlan` returns
exactly that plan, and two calls with arbitrary (possibly different) plan
IDs and contexts return equal results. -/
theorem getPlan_existing_ignores_inputs (b : Broker) (env : Env)
    (instanceID : String) (p : Plan)
    (h : b.getInstancePlan env instanceID = .ok p) :
    ∀ planID₁ planID₂ c₁ c₂,
      b.getPlan env instanceID planID₁ c₁ = .ok p ∧
      b.getPlan env instanceID planID₁ c₁ = b.getPlan env instanceID planID₂ c₂ := by
  intro planID₁ planID₂ c₁ c₂
  constructor <;> simp only [Broker.getPlan, h]

/-- C9, witness: a decodable stored record yields the same plan for two
calls with different plan IDs and contexts. -/
theorem getPlan_existing_ignores_inputs_witness :
    broker0.getPlan envRecordGood "i-9" "full-plan" (some ctx0) = .ok planDemo ∧
    broker0.getPlan envRecordGood "i-9" "full-plan" (some ctx0) =
      broker0.getPlan envRecordGood "i-9" "other-plan" none :=
  getPlan_existing_ignores_inputs broker0 envRecordGood "i-9" planDemo rfl
    "full-plan" "other-plan" (some ctx0) none

/-- C10: `GetDashboardURL` is total (it returns a string, never an error):
when the configured Atlas URL parses, the result is that URL with its path
set to `/v2/<groupID>`, rendered, followed by `#clusters/detail/<clusterName>`;
when it does not parse, the result is the parse error's message. -/
theorem GetDashboardURL_total_spec (b : Broker) (groupID clusterName : String) :
    (∀ u, urlParse b.atlasURL = .ok u →
      b.GetDashboardURL groupID clusterName =
        { u with Path := "/v2/" ++ groupID }.render ++
          "#clusters/detail/" ++ clusterName) ∧
    (∀ e, urlParse b.atlasURL = .error e →
      b.GetDashboardURL groupID clusterName = e) := by
  constructor <;> intro x hx <;> simp only [Broker.GetDashboardURL, hx]

/-- C10, witness: the concrete broker URL parses and yields the dashboard
URL; a URL holding a control character does not parse and the error message
is returned as the result. -/
theorem GetDashboardURL_total_spec_witness :
    broker0.GetDashboardURL "g1" "c1" =
      "https://cloud.mongodb.com/v2/g1#clusters/detail/c1" ∧
    { broker0 with atlasURL := "https://bad\thost" }.GetDashboardURL "g1" "c1" =
      "parse \"https://bad\thost\": net/url: invalid control character in URL" := by
  refine ⟨?_, ?_⟩
  · have h := (GetDashboardURL_total_spec broker0 "g1" "c1").1
      ⟨"https", "cloud.mongodb.com", "", "", ""⟩ rfl
    exact h.trans rfl
  · have h := (GetDashboardURL_total_spec
      { broker0 with atlasURL := "https://bad\thost" } "g1" "c1").2
      "parse \"https://bad\thost\": net/url: invalid control character in URL" rfl
    exact h
